import Mathlib

/-!
Verification of the Reve AI SDK generation lifecycle engine (src/index.ts).

This file gives a shallow embedding of the engine's pure logic: the polling
state machine (pollGenerationStatus), submission-response normalization,
chat-response extraction (enhanceEditPrompt), prompt-enhancement fallback
(enhancePrompt), per-item seed and prompt assignment in the batch
orchestrator (generateImage / generateSingleImage), and artifact re-encoding
(btoa into a base64 data URI).

External effects are modelled by explicit parameters:
every HTTP exchange an iteration of the code performs is an input to that
iteration (an IterEnv), and every Math.random() draw is a natural-number
parameter reduced by the very modulus the code applies to the draw.
JavaScript truthiness on the string fields the code probes is modelled
explicitly (a string is truthy iff nonempty; undefined is falsy).
-/

namespace ReveAI

/-- JavaScript truthiness for a string value: truthy iff nonempty. -/
def truthy (s : String) : Bool := s != ""

/-- Truthiness of an optional string field (undefined/absent is falsy). -/
def truthyOpt : Option String → Bool
  | none => false
  | some s => truthy s

/-- Model of the JavaScript `a || d` defaulting idiom on an optional string
(an absent or empty string falls back to the default). -/
def orDefaultStr (v : Option String) (d : String) : String :=
  match v with
  | some s => if truthy s then s else d
  | none => d

/-- Model of the JavaScript `a || d` defaulting idiom on an optional number
(an absent or zero value falls back to the default). -/
def orDefaultNat (v : Option Nat) (d : Nat) : Nat :=
  match v with
  | some n => if n ≠ 0 then n else d
  | none => d

/-! ## Base64 encoding (the btoa call on the artifact bytes)

The code builds a binary string from the response's Uint8Array and feeds it
to btoa; since every char code is a byte, this is plain base64 of the byte
sequence. -/

/-- The base64 alphabet. -/
def base64Table : List Char :=
  "ABCDEFGHIJKLMNOPQRSTUVWXYZabcdefghijklmnopqrstuvwxyz0123456789+/".toList

/-- Character for a 6-bit group. -/
def base64Char (n : Nat) : Char := base64Table.getD n (Char.ofNat 61)

/-- Padding character of base64 output. -/
def base64Pad : Char := Char.ofNat 61

/-- Encode a byte list into base64 characters, three bytes at a time. -/
def btoaChunks : List Nat → List Char
  | [] => []
  | [b0] =>
    let v0 := b0 % 256
    [base64Char (v0 / 4), base64Char (v0 % 4 * 16), base64Pad, base64Pad]
  | [b0, b1] =>
    let v0 := b0 % 256
    let v1 := b1 % 256
    [base64Char (v0 / 4), base64Char (v0 % 4 * 16 + v1 / 16),
     base64Char (v1 % 16 * 4), base64Pad]
  | b0 :: b1 :: b2 :: rest =>
    let v0 := b0 % 256
    let v1 := b1 % 256
    let v2 := b2 % 256
    base64Char (v0 / 4) :: base64Char (v0 % 4 * 16 + v1 / 16) ::
      base64Char (v1 % 16 * 4 + v2 / 64) :: base64Char (v2 % 64) ::
      btoaChunks rest

/-- Model of btoa on the binary string built from the artifact bytes. -/
def btoa (bytes : List Nat) : String := String.mk (btoaChunks bytes)

/-! ## Polling engine (pollGenerationStatus) -/

/-- The inference_inputs record of a node-list entry (only the seed field is
read by the engine, via optional chaining with a -1 fallback). -/
structure InferenceInputs where
  seed : Option Int
deriving Repr, DecidableEq

/-- The data record of a node-list entry: an optional output reference, an
optional error message, and optional inference inputs. -/
structure NodeData where
  output : Option String
  error : Option String
  inference_inputs : Option InferenceInputs
deriving Repr, DecidableEq

/-- The node record of a node-list entry (only its id is read). -/
structure NodeRef where
  id : Option String
deriving Repr, DecidableEq

/-- One entry of the job-list snapshot returned by GET /node. -/
structure NodeItem where
  node : Option NodeRef
  data : Option NodeData
deriving Repr, DecidableEq

/-- The body of a node response: either it has a list array, or not
(nodeResponse.data?.list missing or not an array). -/
inductive NodeBody where
  | withList (l : List NodeItem)
  | noList
deriving Repr, DecidableEq

/-- A failure of the node-list GET itself: either an SDK error that the catch
clause re-raises unchanged (error instanceof ReveAIError), or any other
failure that handleAxiosError wraps. -/
inductive FetchFailure where
  | sdkError (msg : String)
  | transportError (msg : String)
deriving Repr, DecidableEq

/-- The artifact GET response: a content-type header and the raw bytes. -/
structure ImageResponse where
  contentType : Option String
  bytes : List Nat
deriving Repr, DecidableEq

/-- The external inputs one polling iteration can consume: the node-list
fetch outcome and, if the output path is taken, the artifact fetch outcome. -/
structure IterEnv where
  nodeFetch : Except FetchFailure NodeBody
  imageFetch : Except String ImageResponse
deriving Repr

/-- Outcome of pollGenerationStatus: a successful return value, a raised
GenerationError, the raised PollingError carrying the attempt counter at
timeout, or an abnormal abort re-raised from a failed node fetch. -/
inductive PollOutcome where
  | success (imageUrls : List String) (seed : Int)
  | generationError (msg : String)
  | pollingTimeout (attempts : Nat)
  | aborted (e : FetchFailure)
deriving Repr, DecidableEq

/-- Result of one loop iteration: terminate the loop with an outcome, or
sleep for the polling interval, increment the attempt counter and continue. -/
inductive StepResult where
  | ret (o : PollOutcome)
  | next
deriving Repr, DecidableEq

/-- The find call locating the target generation in the node list
(item.node && item.node.id === generationId). -/
def nodeMatches (generationId : String) (item : NodeItem) : Bool :=
  match item.node with
  | some r => r.id == some generationId
  | none => false

/-- Content-type fallback: headers content-type or the generic image MIME. -/
def mimeOf (contentType : Option String) : String :=
  orDefaultStr contentType "image/webp"

/-- The base64 data URI built from a successful artifact fetch. -/
def imageDataUrl (resp : ImageResponse) : String :=
  "data:" ++ mimeOf resp.contentType ++ ";base64," ++ btoa resp.bytes

/-- The recorded seed of a completed entry
(ourGeneration.data.inference_inputs?.seed ?? -1). -/
def recordedSeed (d : NodeData) : Int :=
  (d.inference_inputs.bind InferenceInputs.seed).getD (-1)

/-- One iteration of the polling loop, translated from the while body of
pollGenerationStatus: fetch the node list (a failure terminates the loop
abnormally), locate the target, take the output path first (fetching the
artifact; an artifact-fetch failure is absorbed as a retry), the error path
second, and otherwise keep polling. -/
def pollStep (generationId : String) (env : IterEnv) : StepResult :=
  match env.nodeFetch with
  | Except.error (FetchFailure.sdkError m) =>
      StepResult.ret (PollOutcome.aborted (FetchFailure.sdkError m))
  | Except.error (FetchFailure.transportError m) =>
      StepResult.ret (PollOutcome.aborted (FetchFailure.transportError m))
  | Except.ok NodeBody.noList => StepResult.next
  | Except.ok (NodeBody.withList l) =>
    match l.find? (nodeMatches generationId) with
    | none => StepResult.next
    | some item =>
      match item.data with
      | none => StepResult.next
      | some d =>
        if truthyOpt d.output then
          match env.imageFetch with
          | Except.ok imageResponse =>
              StepResult.ret
                (PollOutcome.success [imageDataUrl imageResponse] (recordedSeed d))
          | Except.error _ => StepResult.next
        else if truthyOpt d.error then
          StepResult.ret
            (PollOutcome.generationError ("Generation failed: " ++ d.error.getD ""))
        else StepResult.next

/-- The polling loop. The fuel argument is maxPollingAttempts minus the
current attempt counter, so the while guard attempts < maxPollingAttempts
is exactly fuel > 0; when fuel runs out the PollingError is raised with the
current attempt counter in its message. -/
def pollLoop (generationId : String) (env : Nat → IterEnv) :
    Nat → Nat → PollOutcome
  | attempts, 0 => PollOutcome.pollingTimeout attempts
  | attempts, fuel + 1 =>
    match pollStep generationId (env attempts) with
    | StepResult.ret o => o
    | StepResult.next => pollLoop generationId env (attempts + 1) fuel

/-- Model of pollGenerationStatus: run the loop from attempt counter 0 with
the configured maximum number of attempts as fuel, the iteration at attempt
counter n consuming the external inputs env n. -/
def pollGenerationStatus (generationId : String) (env : Nat → IterEnv)
    (maxPollingAttempts : Nat) : PollOutcome :=
  pollLoop generationId env 0 maxPollingAttempts

/-- Non-terminal snapshot for the target job: the list is missing, or the
job is absent, or it is present without a data record, or its data record
has neither a truthy output reference nor a truthy error field. -/
def jobNonTerminal (generationId : String) (body : NodeBody) : Prop :=
  match body with
  | NodeBody.noList => True
  | NodeBody.withList l =>
    match l.find? (nodeMatches generationId) with
    | none => True
    | some item =>
      match item.data with
      | none => True
      | some d => truthyOpt d.output = false ∧ truthyOpt d.error = false

/-! ## Error taxonomy (types/index.ts, ReveAIErrorType) -/

/-- Closed set of SDK error kinds. -/
inductive ReveAIErrorType where
  | AUTHENTICATION_ERROR
  | API_ERROR
  | REQUEST_ERROR
  | TIMEOUT_ERROR
  | GENERATION_ERROR
  | POLLING_ERROR
  | UNEXPECTED_RESPONSE
  | UNKNOWN_ERROR
deriving Repr, DecidableEq

/-! ## Response normalizer: generation id extraction (generateSingleImage) -/

/-- The node record inside the nested create path of a submission response. -/
structure CreateNode where
  id : Option String
deriving Repr, DecidableEq

/-- The create record of a submission response. -/
structure CreateRecord where
  node : Option CreateNode
deriving Repr, DecidableEq

/-- A submission response body, as probed by the extraction code: the nested
create.node.id path and the flat legacy generation_id field. -/
structure SubmissionResponse where
  create : Option CreateRecord
  generation_id : Option String
deriving Repr, DecidableEq

/-- The truthy value of the nested create.node.id chain
(data.create && data.create.node && data.create.node.id). -/
def nestedId (r : SubmissionResponse) : Option String :=
  match r.create with
  | some c =>
    match c.node with
    | some n =>
      match n.id with
      | some s => if truthy s then some s else none
      | none => none
    | none => none
  | none => none

/-- The truthy value of the flat legacy generation_id field. -/
def legacyId (r : SubmissionResponse) : Option String :=
  match r.generation_id with
  | some s => if truthy s then some s else none
  | none => none

/-- Generation-id extraction from a submission response, translated from
generateSingleImage: the nested format is checked first, the legacy field
second, and if the resulting value is still falsy an UNEXPECTED_RESPONSE
error is raised. -/
def extractGenerationId (r : SubmissionResponse) : Except ReveAIErrorType String :=
  match nestedId r with
  | some s => Except.ok s
  | none =>
    match legacyId r with
    | some s => Except.ok s
    | none => Except.error ReveAIErrorType.UNEXPECTED_RESPONSE

/-! ## JavaScript values and JSON.parse (for the chat extraction path)

The chat response body is an arbitrary JSON value, and the first extraction
shape re-parses an inner JSON string, so we model JSON values and give an
executable model of JSON.parse (fuel-indexed recursive descent; numeric
fractions, exponents and unicode escapes are outside the fragment the
claims exercise and make the parse fail, like any other malformed input). -/

/-- A JSON value as delivered to the response handlers. -/
inductive JVal where
  | jnull
  | jbool (b : Bool)
  | jnum (n : Int)
  | jstr (s : String)
  | jarr (elems : List JVal)
  | jobj (fields : List (String × JVal))
deriving Repr

/-- Field access on a JSON value: undefined unless the value is an object
carrying the key. -/
def JVal.getField : JVal → String → Option JVal
  | JVal.jobj fields, k => (fields.find? (fun p => p.1 == k)).map Prod.snd
  | _, _ => none

/-- A value when it is a string (the typeof x === "string" probe). -/
def JVal.asStr : JVal → Option String
  | JVal.jstr s => some s
  | _ => none

/-- Double-quote character. -/
def quoteChar : Char := Char.ofNat 34

/-- Backslash character. -/
def backslashChar : Char := Char.ofNat 92

/-- Opening brace character. -/
def lbraceChar : Char := Char.ofNat 123

/-- Closing brace character. -/
def rbraceChar : Char := Char.ofNat 125

/-- Opening bracket character. -/
def lbrackChar : Char := Char.ofNat 91

/-- Closing bracket character. -/
def rbrackChar : Char := Char.ofNat 93

/-- Comma character. -/
def commaChar : Char := Char.ofNat 44

/-- Colon character. -/
def colonChar : Char := Char.ofNat 58

/-- Whitespace in JSON. -/
def isJsonWs (c : Char) : Bool :=
  c == Char.ofNat 32 || c == Char.ofNat 10 || c == Char.ofNat 9 || c == Char.ofNat 13

/-- Drop leading JSON whitespace. -/
def skipWs : List Char → List Char
  | [] => []
  | c :: cs => if isJsonWs c then skipWs cs else c :: cs

/-- Resolve a single-character escape sequence. -/
def unescapeChar (c : Char) : Option Char :=
  if c == quoteChar then some quoteChar
  else if c == backslashChar then some backslashChar
  else if c == Char.ofNat 47 then some (Char.ofNat 47)
  else if c == Char.ofNat 110 then some (Char.ofNat 10)
  else if c == Char.ofNat 116 then some (Char.ofNat 9)
  else if c == Char.ofNat 114 then some (Char.ofNat 13)
  else if c == Char.ofNat 98 then some (Char.ofNat 8)
  else if c == Char.ofNat 102 then some (Char.ofNat 12)
  else none

/-- Parse the body of a JSON string after the opening quote, returning the
decoded string and the remaining input after the closing quote. -/
def parseStringBody : List Char → String → Option (String × List Char)
  | [], _ => none
  | c :: cs, acc =>
    if c == quoteChar then some (acc, cs)
    else if c == backslashChar then
      match cs with
      | [] => none
      | e :: cs2 =>
        match unescapeChar e with
        | some ch => parseStringBody cs2 (acc.push ch)
        | none => none
    else parseStringBody cs (acc.push c)

/-- Split leading decimal digits from the input. -/
def takeDigits : List Char → (List Char × List Char)
  | [] => ([], [])
  | c :: cs =>
    if c.isDigit then
      let r := takeDigits cs
      (c :: r.1, r.2)
    else ([], c :: cs)

/-- Numeric value of a digit list. -/
def digitsToNat (ds : List Char) : Nat :=
  ds.foldl (fun acc c => acc * 10 + (c.toNat - 48)) 0

/-- Match an expected literal tail (rue, alse, ull). -/
def dropLit : List Char → List Char → Option (List Char)
  | [], cs => some cs
  | _ :: _, [] => none
  | l :: ls, c :: cs => if c == l then dropLit ls cs else none

mutual

/-- Parse one JSON value from the input (fuel-indexed). -/
def parseJVal : Nat → List Char → Option (JVal × List Char)
  | 0, _ => none
  | fuel + 1, input =>
    match skipWs input with
    | [] => none
    | c :: cs =>
      if c == quoteChar then
        (parseStringBody cs "").map (fun r => (JVal.jstr r.1, r.2))
      else if c == lbraceChar then
        match skipWs cs with
        | [] => none
        | d :: ds =>
          if d == rbraceChar then some (JVal.jobj [], ds)
          else (parseMembers fuel (d :: ds) []).map (fun r => (JVal.jobj r.1, r.2))
      else if c == lbrackChar then
        match skipWs cs with
        | [] => none
        | d :: ds =>
          if d == rbrackChar then some (JVal.jarr [], ds)
          else (parseElems fuel (d :: ds) []).map (fun r => (JVal.jarr r.1, r.2))
      else if c == Char.ofNat 116 then
        (dropLit "rue".toList cs).map (fun r => (JVal.jbool true, r))
      else if c == Char.ofNat 102 then
        (dropLit "alse".toList cs).map (fun r => (JVal.jbool false, r))
      else if c == Char.ofNat 110 then
        (dropLit "ull".toList cs).map (fun r => (JVal.jnull, r))
      else if c == Char.ofNat 45 then
        match takeDigits cs with
        | ([], _) => none
        | (ds, rest) => some (JVal.jnum (-(digitsToNat ds : Int)), rest)
      else if c.isDigit then
        match takeDigits (c :: cs) with
        | ([], _) => none
        | (ds, rest) => some (JVal.jnum (digitsToNat ds : Int), rest)
      else none

/-- Parse the members of a JSON object after its opening brace. -/
def parseMembers : Nat → List Char → List (String × JVal) →
    Option (List (String × JVal) × List Char)
  | 0, _, _ => none
  | fuel + 1, cs, acc =>
    match skipWs cs with
    | [] => none
    | q :: rest =>
      if q == quoteChar then
        match parseStringBody rest "" with
        | none => none
        | some (key, afterKey) =>
          match skipWs afterKey with
          | [] => none
          | col :: afterCol =>
            if col == colonChar then
              match parseJVal fuel afterCol with
              | none => none
              | some (v, afterVal) =>
                match skipWs afterVal with
                | [] => none
                | s :: rest2 =>
                  if s == commaChar then
                    parseMembers fuel rest2 (acc ++ [(key, v)])
                  else if s == rbraceChar then some (acc ++ [(key, v)], rest2)
                  else none
            else none
      else none

/-- Parse the elements of a JSON array after its opening bracket. -/
def parseElems : Nat → List Char → List JVal → Option (List JVal × List Char)
  | 0, _, _ => none
  | fuel + 1, cs, acc =>
    match parseJVal fuel cs with
    | none => none
    | some (v, afterVal) =>
      match skipWs afterVal with
      | [] => none
      | s :: rest2 =>
        if s == commaChar then parseElems fuel rest2 (acc ++ [v])
        else if s == rbrackChar then some (acc ++ [v], rest2)
        else none

end

/-- Model of JSON.parse: parse one value and demand only whitespace follows. -/
def parseJson (s : String) : Option JVal :=
  match parseJVal (s.length + 1) s.toList with
  | some (v, rest) => if (skipWs rest).isEmpty then some v else none
  | none => none

/-! ## Chat-response extraction (enhanceEditPrompt) -/

/-- Chat-response extraction translated from enhanceEditPrompt: the inner
parse of a response string field, then the content field, then the
OpenAI-style nested path, then a multi_content array's first text entry,
then the bare-string root; the first hit is returned and exhaustion raises
UNEXPECTED_RESPONSE. The source repeats the first block verbatim a second
time; a second evaluation of the same pure probe returns the same value, so
one binding models both occurrences. -/
def enhanceEditPromptExtract (body : JVal) : Except ReveAIErrorType String :=
  let attempt1 : Option String :=
    match (body.getField "response").bind JVal.asStr with
    | some raw =>
      match parseJson raw with
      | some inner => (inner.getField "prompt").bind JVal.asStr
      | none => none
    | none => none
  let attempt2 : Option String := (body.getField "content").bind JVal.asStr
  let attempt3 : Option String :=
    match body.getField "choices" with
    | some (JVal.jarr (c0 :: _)) =>
        ((c0.getField "message").bind (fun m => m.getField "content")).bind JVal.asStr
    | _ => none
  let attempt4 : Option String :=
    match body.getField "multi_content" with
    | some (JVal.jarr (m0 :: _)) => (m0.getField "text").bind JVal.asStr
    | _ => none
  let attempt5 : Option String := body.asStr
  match attempt1 with
  | some p => Except.ok p
  | none =>
    match attempt2 with
    | some p => Except.ok p
    | none =>
      match attempt3 with
      | some p => Except.ok p
      | none =>
        match attempt4 with
        | some p => Except.ok p
        | none =>
          match attempt5 with
          | some p => Except.ok p
          | none => Except.error ReveAIErrorType.UNEXPECTED_RESPONSE

/-- Shape (1) of the spec: a string field whose content is itself JSON
containing a prompt field — parse and extract. -/
def specShapeInnerJson (body : JVal) : Option String :=
  match (body.getField "response").bind JVal.asStr with
  | some raw =>
    match parseJson raw with
    | some inner => (inner.getField "prompt").bind JVal.asStr
    | none => none
  | none => none

/-- Shape (2) of the spec: a plain content string field. -/
def specShapeContent (body : JVal) : Option String :=
  (body.getField "content").bind JVal.asStr

/-- Shape (3) of the spec: the OpenAI-style nested choice/message/content
path, taking the first choice. -/
def specShapeChoices (body : JVal) : Option String :=
  match body.getField "choices" with
  | some (JVal.jarr (c0 :: _)) =>
      ((c0.getField "message").bind (fun m => m.getField "content")).bind JVal.asStr
  | _ => none

/-- Shape (4) of the spec: a multi-part content array's first text entry. -/
def specShapeMultiContent (body : JVal) : Option String :=
  match body.getField "multi_content" with
  | some (JVal.jarr (m0 :: _)) => (m0.getField "text").bind JVal.asStr
  | _ => none

/-- Shape (5) of the spec: the root body itself when it is a bare string. -/
def specShapeRoot (body : JVal) : Option String := body.asStr

/-- The five shapes in the spec's priority order. -/
def specChatShapes (body : JVal) : List (Option String) :=
  [specShapeInnerJson body, specShapeContent body, specShapeChoices body,
   specShapeMultiContent body, specShapeRoot body]

/-- First successful extraction of a list of attempts. -/
def firstSome : List (Option String) → Option String
  | [] => none
  | some p :: _ => some p
  | none :: rest => firstSome rest

/-! ## Prompt enhancement fallback (enhancePrompt) -/

/-- The outputs record of the last step of a model_infer_sync response. -/
structure EnhanceOutputs where
  expanded_prompts : Option (List String)
deriving Repr, DecidableEq

/-- One step record of a model_infer_sync response. -/
structure EnhanceStep where
  status : Option String
  outputs : Option EnhanceOutputs
deriving Repr, DecidableEq

/-- The body of a model_infer_sync response: an array of step records, or
anything that is not an array. -/
inductive EnhanceBody where
  | steps (l : List EnhanceStep)
  | nonArray
deriving Repr, DecidableEq

/-- Model of enhancePrompt's result as a function of the transport outcome:
a transport error, a non-array body, an empty array, a last step whose
status flag is not success, or missing expanded_prompts all fall back to
the original prompt as a one-element list; only a successful last step with
an expanded_prompts array yields those variants. The function is total:
enhancePrompt never raises. -/
def enhancePrompt (prompt : String) (resp : Except String EnhanceBody) : List String :=
  match resp with
  | Except.error _ => [prompt]
  | Except.ok EnhanceBody.nonArray => [prompt]
  | Except.ok (EnhanceBody.steps l) =>
    match l.getLast? with
    | none => [prompt]
    | some lastResponse =>
      if lastResponse.status == some "success" then
        match lastResponse.outputs with
        | some outs =>
          match outs.expanded_prompts with
          | some ps => ps
          | none => [prompt]
        | none => [prompt]
      else [prompt]

/-! ## Single-generation submission (generateSingleImage) -/

/-- Options of generateImage/generateSingleImage (types/index.ts). -/
structure GenerateImageOptions where
  prompt : String
  negativePrompt : Option String
  width : Option Nat
  height : Option Nat
  seed : Option Int
  batchSize : Option Nat
  model : Option String
  enhancePrompt : Option Bool
deriving Repr, DecidableEq

/-- Resolution of the caption in generateSingleImage: a truthy pre-enhanced
prompt wins when enhancement is on; otherwise, with enhancement on, the
first variant of an on-the-spot enhancePrompt call (whose returned list is
the enhanceNow parameter) if nonempty; otherwise the original prompt. -/
def finalPromptOf (opts : GenerateImageOptions) (enhancedPrompt : Option String)
    (enhanceNow : List String) : String :=
  let shouldEnhancePrompt := opts.enhancePrompt.getD true
  if truthyOpt enhancedPrompt && shouldEnhancePrompt then enhancedPrompt.getD ""
  else if shouldEnhancePrompt then
    match enhanceNow with
    | [] => opts.prompt
    | p :: _ => p
  else opts.prompt

/-- Seed submitted in inference_inputs: the -1 sentinel resolves to
Math.floor(Math.random() * 10000000), modelled as a draw reduced mod 10^7;
any other seed is passed through. -/
def resolveSeed (seed : Int) (draw : Nat) : Int :=
  if seed = -1 then ((draw % 10000000 : Nat) : Int) else seed

/-- The client_metadata part of the generation payload. -/
structure ClientMetadata where
  aspectRatio : String
  instruction : String
  optimizeEnabled : Bool
  unexpandedPrompt : String
deriving Repr, DecidableEq

/-- The inference_inputs part of the generation payload. -/
structure GenInferenceInputs where
  caption : String
  height : Nat
  negative_caption : String
  seed : Int
  width : Nat
deriving Repr, DecidableEq

/-- The generation payload POSTed to the generation endpoint (without the
node envelope, whose id is a client-side random UUID). -/
structure GenerationPayload where
  client_metadata : ClientMetadata
  inference_inputs : GenInferenceInputs
  inference_model : String
deriving Repr, DecidableEq

/-- The generation payload built by generateSingleImage from its options,
the optional pre-enhanced prompt, the result of an on-the-spot enhancement
call, and the Math.random() draw used when the seed is the -1 sentinel. -/
def generationPayloadOf (opts : GenerateImageOptions) (enhancedPrompt : Option String)
    (enhanceNow : List String) (seedDraw : Nat) : GenerationPayload :=
  let prompt := opts.prompt
  let negativePrompt := orDefaultStr opts.negativePrompt ""
  let width := orDefaultNat opts.width 1024
  let height := orDefaultNat opts.height 1024
  let seed := opts.seed.getD (-1)
  let model := orDefaultStr opts.model "text2image_v1/prod/20250325-2246"
  let shouldEnhancePrompt := opts.enhancePrompt.getD true
  let finalPrompt := finalPromptOf opts enhancedPrompt enhanceNow
  { client_metadata :=
      { aspectRatio := toString width ++ ":" ++ toString height
        instruction := prompt
        optimizeEnabled := shouldEnhancePrompt
        unexpandedPrompt := prompt }
    inference_inputs :=
      { caption := finalPrompt
        height := height
        negative_caption := negativePrompt
        seed := resolveSeed seed seedDraw
        width := width }
    inference_model := model }

/-! ## Batch orchestration (generateImage) -/

/-- The seed field of the options handed to the pipeline of batch item with
random draw `draw`: the sentinel -1 when the caller gave no seed, and the
caller's seed plus Math.floor(Math.random() * 1000) otherwise. -/
def batchItemSeed (seed : Option Int) (draw : Nat) : Int :=
  match seed with
  | none => -1
  | some s => s + ((draw % 1000 : Nat) : Int)

/-- The pre-enhanced prompt handed to batch item `index`: with enhancement
on and a nonempty pre-fetched variant list, the variant at index modulo the
list length; otherwise undefined. -/
def batchItemEnhancedPrompt (enh : Bool) (enhancedPrompts : List String)
    (index : Nat) : Option String :=
  if enh && decide (0 < enhancedPrompts.length) then
    enhancedPrompts.get? (index % enhancedPrompts.length)
  else none

/-- The value a successful generateSingleImage pipeline resolves to. -/
structure SingleImageResult where
  imageUrl : String
  seed : Int
  generationId : String
  enhancedPrompt : Option String
  caption : String
deriving Repr, DecidableEq, Inhabited

/-- The aggregate result of generateImage (types/index.ts, with the
completedAt wall-clock timestamp out of scope of the embedding). -/
structure GenerateImageResult where
  generationIds : List String
  imageUrls : List String
  seed : Int
  prompt : String
  caption : Option String
  captions : Option (List String)
  enhancedPrompt : Option String
  enhancedPrompts : Option (List String)
  negativePrompt : Option String
deriving Repr, DecidableEq

/-- The reduction step of generateImage over the listed results of the
awaited pipelines (Promise.all resolves to the results in submission
order). -/
def aggregateResults (prompt negativePrompt : String) (enh : Bool)
    (results : List SingleImageResult) : GenerateImageResult :=
  let usedCaptions := results.map SingleImageResult.caption
  let usedEnhancedPrompts := results.filterMap SingleImageResult.enhancedPrompt
  { generationIds := results.map SingleImageResult.generationId
    imageUrls := results.map SingleImageResult.imageUrl
    seed := results.headI.seed
    prompt := prompt
    caption := if usedCaptions.length = 1 then usedCaptions.head? else none
    captions := if 1 < usedCaptions.length then some usedCaptions else none
    enhancedPrompt :=
      if enh && decide (0 < usedEnhancedPrompts.length) then usedEnhancedPrompts.head?
      else none
    enhancedPrompts :=
      if enh && decide (0 < usedEnhancedPrompts.length) then
        (if 1 < usedEnhancedPrompts.length then some usedEnhancedPrompts else none)
      else none
    negativePrompt := if truthy negativePrompt then some negativePrompt else none }

/-- Model of generateImage's success path: batchSize pipelines are launched
in submission order (Array.from with length batchSize), pipeline i resolving
to `pipeline i`, and the results are reduced by aggregateResults. -/
def generateImage (opts : GenerateImageOptions)
    (pipeline : Nat → SingleImageResult) : GenerateImageResult :=
  let batchSize := orDefaultNat opts.batchSize 1
  let results := (List.range batchSize).map pipeline
  aggregateResults opts.prompt (orDefaultStr opts.negativePrompt "")
    (opts.enhancePrompt.getD true) results

/-! ## Theorems -/

/-- Helper: a non-terminal snapshot makes the loop body fall through to the
sleep-and-increment path. -/
theorem pollStep_next_of_nonTerminal (generationId : String) (e : IterEnv)
    (body : NodeBody) (hf : e.nodeFetch = Except.ok body)
    (hnt : jobNonTerminal generationId body) :
    pollStep generationId e = StepResult.next := by
  unfold pollStep
  rw [hf]
  cases body with
  | noList => rfl
  | withList l =>
    simp only [jobNonTerminal] at hnt
    cases hfind : l.find? (nodeMatches generationId) with
    | none => simp [hfind]
    | some item =>
      simp only [hfind] at hnt
      cases hd : item.data with
      | none => simp [hfind, hd]
      | some d =>
        simp only [hd] at hnt
        simp [hfind, hd, hnt.1, hnt.2]

/-- C1: with maxPollingAttempts = M and a target job that is never found
carrying an output reference or an error field (every snapshot fetch
succeeding), pollGenerationStatus performs exactly M polling iterations and
then raises PollingError with the attempt counter at timeout equal to M. -/
theorem pollGenerationStatus_timeout_at_max (generationId : String)
    (env : Nat → IterEnv) (M : Nat)
    (h : ∀ n, ∃ body, (env n).nodeFetch = Except.ok body ∧
        jobNonTerminal generationId body) :
    pollGenerationStatus generationId env M = PollOutcome.pollingTimeout M := by
  have key : ∀ fuel attempts, pollLoop generationId env attempts fuel
      = PollOutcome.pollingTimeout (attempts + fuel) := by
    intro fuel
    induction fuel with
    | zero => intro a; simp [pollLoop]
    | succ f ih =>
      intro a
      obtain ⟨body, hf, hnt⟩ := h a
      have hstep := pollStep_next_of_nonTerminal generationId (env a) body hf hnt
      have hone : pollLoop generationId env a (f + 1)
          = pollLoop generationId env (a + 1) f := by
        simp [pollLoop, hstep]
      rw [hone, ih (a + 1)]
      congr 1
      omega
  simpa [pollGenerationStatus] using key M 0

/-- Witness for C1 at a concrete never-terminal environment and M = 3. -/
theorem pollGenerationStatus_timeout_at_max_witness :
    pollGenerationStatus "g" (fun _ => ⟨Except.ok NodeBody.noList, Except.error "e"⟩) 3
      = PollOutcome.pollingTimeout 3 :=
  pollGenerationStatus_timeout_at_max "g" _ 3
    (fun _ => ⟨NodeBody.noList, rfl, trivial⟩)

/-- A polling environment whose single list entry carries both an output
reference and an error field, with a succeeding artifact fetch. -/
def envOutputAndError : Nat → IterEnv := fun _ =>
  { nodeFetch := Except.ok (NodeBody.withList
      [{ node := some { id := some "g" },
         data := some { output := some "img-1", error := some "OOM",
                        inference_inputs := none } }])
    imageFetch := Except.ok { contentType := none, bytes := [] } }

/-- C2 counterexample: a poll iteration whose target entry carries an error
field (data.error = "OOM") does not raise GenerationError when the entry
also carries an output reference — the engine returns the artifact
successfully instead, because the output check precedes the error check. -/
theorem pollGenerationStatus_error_field_no_shortcircuit :
    pollGenerationStatus "g" envOutputAndError 5
      = PollOutcome.success ["data:image/webp;base64,"] (-1) := by
  rfl

/-- C2 (amended): in a poll iteration whose target entry carries an error
field and no truthy output reference, pollGenerationStatus raises
GenerationError containing the upstream error text, regardless of the
remaining attempt budget (only the first iteration's snapshot is consulted,
for every M ≥ 1), and the failure is terminal. -/
theorem pollGenerationStatus_error_shortcircuit (generationId : String)
    (env : Nat → IterEnv) (M : Nat) (l : List NodeItem) (item : NodeItem)
    (d : NodeData) (err : String) (hM : 1 ≤ M)
    (hf : (env 0).nodeFetch = Except.ok (NodeBody.withList l))
    (hfind : l.find? (nodeMatches generationId) = some item)
    (hd : item.data = some d)
    (hout : truthyOpt d.output = false)
    (herr : d.error = some err) (herrT : truthy err = true) :
    pollGenerationStatus generationId env M
      = PollOutcome.generationError ("Generation failed: " ++ err) ∧
    ∃ a b, "Generation failed: " ++ err = a ++ err ++ b := by
  obtain ⟨f, rfl⟩ : ∃ f, M = f + 1 := ⟨M - 1, by omega⟩
  constructor
  · have hstep : pollStep generationId (env 0) = StepResult.ret
        (PollOutcome.generationError ("Generation failed: " ++ err)) := by
      unfold pollStep
      rw [hf]
      simp only [truthyOpt] at hout
      simp [hfind, hd, hout, herr, herrT, truthyOpt]
    show pollLoop generationId env 0 (f + 1) = _
    simp [pollLoop, hstep]
  · exact ⟨"Generation failed: ", "", by rw [String.append_empty]⟩

/-- A polling environment whose single list entry carries only an error
field. -/
def envErrorOnly : Nat → IterEnv := fun _ =>
  { nodeFetch := Except.ok (NodeBody.withList
      [{ node := some { id := some "g" },
         data := some { output := none, error := some "OOM",
                        inference_inputs := none } }])
    imageFetch := Except.error "e" }

/-- Witness for amended C2: the data.error = "OOM" scenario raises a
GenerationError containing "OOM" with the full default attempt budget
remaining. -/
theorem pollGenerationStatus_error_shortcircuit_witness :
    pollGenerationStatus "g" envErrorOnly 60
      = PollOutcome.generationError ("Generation failed: " ++ "OOM") :=
  (pollGenerationStatus_error_shortcircuit "g" envErrorOnly 60 _ _ _ "OOM"
    (by omega) rfl rfl rfl rfl rfl rfl).1

/-- C3: a poll iteration that finds the target entry carrying an output
reference but whose artifact fetch fails does not raise and does not
terminate the loop: the step falls through to the sleep path, and the loop
continues at the next attempt counter with one attempt consumed from the
budget. -/
theorem artifactFetchFailure_retries (generationId : String)
    (env : Nat → IterEnv) (attempts fuel : Nat) (l : List NodeItem)
    (item : NodeItem) (d : NodeData) (e : String)
    (hf : (env attempts).nodeFetch = Except.ok (NodeBody.withList l))
    (hfind : l.find? (nodeMatches generationId) = some item)
    (hd : item.data = some d)
    (hout : truthyOpt d.output = true)
    (himg : (env attempts).imageFetch = Except.error e) :
    pollStep generationId (env attempts) = StepResult.next ∧
    pollLoop generationId env attempts (fuel + 1)
      = pollLoop generationId env (attempts + 1) fuel := by
  have hstep : pollStep generationId (env attempts) = StepResult.next := by
    unfold pollStep
    rw [hf]
    simp [hfind, hd, hout, himg]
  exact ⟨hstep, by simp [pollLoop, hstep]⟩

/-- A polling environment whose entry is completed but whose artifact fetch
fails. -/
def envArtifactFailure : Nat → IterEnv := fun _ =>
  { nodeFetch := Except.ok (NodeBody.withList
      [{ node := some { id := some "g" },
         data := some { output := some "img-1", error := none,
                        inference_inputs := none } }])
    imageFetch := Except.error "fetch failed" }

/-- Witness for C3 at a concrete completed-but-unfetchable environment. -/
theorem artifactFetchFailure_retries_witness :
    pollStep "g" (envArtifactFailure 0) = StepResult.next ∧
    pollLoop "g" envArtifactFailure 0 3 = pollLoop "g" envArtifactFailure 1 2 :=
  artifactFetchFailure_retries "g" envArtifactFailure 0 2 _ _ _ "fetch failed"
    rfl rfl rfl rfl rfl

/-- C10: when the target entry carries both an output reference and an error
field and the artifact fetch succeeds, the engine takes the output path and
returns normally; it does not raise GenerationError for that entry, because
the output check precedes the error check. -/
theorem outputPathPrecedesError (generationId : String) (env : Nat → IterEnv)
    (M : Nat) (l : List NodeItem) (item : NodeItem) (d : NodeData)
    (img : ImageResponse) (hM : 1 ≤ M)
    (hf : (env 0).nodeFetch = Except.ok (NodeBody.withList l))
    (hfind : l.find? (nodeMatches generationId) = some item)
    (hd : item.data = some d)
    (hout : truthyOpt d.output = true)
    (herr : truthyOpt d.error = true)
    (himg : (env 0).imageFetch = Except.ok img) :
    pollGenerationStatus generationId env M
      = PollOutcome.success [imageDataUrl img] (recordedSeed d) ∧
    ∀ msg, pollGenerationStatus generationId env M
      ≠ PollOutcome.generationError msg := by
  obtain ⟨f, rfl⟩ : ∃ f, M = f + 1 := ⟨M - 1, by omega⟩
  have hstep : pollStep generationId (env 0) = StepResult.ret
      (PollOutcome.success [imageDataUrl img] (recordedSeed d)) := by
    unfold pollStep
    rw [hf]
    simp [hfind, hd, hout, himg]
  have hmain : pollGenerationStatus generationId env (f + 1)
      = PollOutcome.success [imageDataUrl img] (recordedSeed d) := by
    show pollLoop generationId env 0 (f + 1) = _
    simp [pollLoop, hstep]
  refine ⟨hmain, ?_⟩
  intro msg
  rw [hmain]
  simp

/-- Witness for C10 at a concrete both-fields environment. -/
theorem outputPathPrecedesError_witness :
    pollGenerationStatus "g" envOutputAndError 5
      = PollOutcome.success
          [imageDataUrl { contentType := none, bytes := [] }]
          (recordedSeed { output := some "img-1", error := some "OOM",
                          inference_inputs := none }) :=
  (outputPathPrecedesError "g" envOutputAndError 5 _ _ _ _
    (by omega) rfl rfl rfl rfl rfl rfl).1

/-- C7: job-identifier extraction checks the nested create.node.id path
first and the flat legacy generation_id field second; a response whose
nested path yields nothing but whose legacy field is present yields the
legacy value; when neither shape is present the extraction fails with
UNEXPECTED_RESPONSE and never produces an identifier. -/
theorem extractGenerationId_priority :
    (∀ r s, nestedId r = some s → extractGenerationId r = Except.ok s) ∧
    (∀ r s, nestedId r = none → legacyId r = some s →
        extractGenerationId r = Except.ok s) ∧
    (∀ r, nestedId r = none → legacyId r = none →
        extractGenerationId r = Except.error ReveAIErrorType.UNEXPECTED_RESPONSE) := by
  refine ⟨?_, ?_, ?_⟩ <;> intros <;> simp [extractGenerationId, *]

/-- Witness for C7: a response carrying generation_id but no create.node.id
resolves through the legacy field. -/
theorem extractGenerationId_priority_witness :
    extractGenerationId ⟨none, some "legacy-1"⟩ = Except.ok "legacy-1" :=
  extractGenerationId_priority.2.1 ⟨none, some "legacy-1"⟩ "legacy-1" rfl rfl

/-- C8: chat-response extraction tries the five shapes in the spec's fixed
priority order with the first success winning and UNEXPECTED_RESPONSE when
all five fail, and the body whose response field holds the JSON text
for prompt "a fox at dusk" extracts exactly that prompt. -/
theorem enhanceEditPromptExtract_priority :
    (∀ body, enhanceEditPromptExtract body =
        match firstSome (specChatShapes body) with
        | some p => Except.ok p
        | none => Except.error ReveAIErrorType.UNEXPECTED_RESPONSE) ∧
    enhanceEditPromptExtract
        (JVal.jobj [("response", JVal.jstr "\x7b\"prompt\":\"a fox at dusk\"\x7d")])
      = Except.ok "a fox at dusk" := by
  constructor
  · intro body
    have hrw : enhanceEditPromptExtract body =
        (match specShapeInnerJson body with
         | some p => Except.ok p
         | none =>
           match specShapeContent body with
           | some p => Except.ok p
           | none =>
             match specShapeChoices body with
             | some p => Except.ok p
             | none =>
               match specShapeMultiContent body with
               | some p => Except.ok p
               | none =>
                 match specShapeRoot body with
                 | some p => Except.ok p
                 | none => Except.error ReveAIErrorType.UNEXPECTED_RESPONSE) := rfl
    rw [hrw]
    simp only [specChatShapes]
    generalize specShapeInnerJson body = a1
    generalize specShapeContent body = a2
    generalize specShapeChoices body = a3
    generalize specShapeMultiContent body = a4
    generalize specShapeRoot body = a5
    cases a1 <;> cases a2 <;> cases a3 <;> cases a4 <;> cases a5 <;> rfl
  · rfl

/-- C9: enhancePrompt never raises — its result is always a list — and on a
transport failure, a non-array body, an empty step array, a last step whose
success flag is not success, or missing expanded prompts, it returns the
single-element list holding the original prompt unchanged; the only other
outcome is the expanded variants of a fully successful last step. -/
theorem enhancePrompt_fallback (prompt : String) (resp : Except String EnhanceBody) :
    (∀ e, resp = Except.error e → enhancePrompt prompt resp = [prompt]) ∧
    (resp = Except.ok EnhanceBody.nonArray → enhancePrompt prompt resp = [prompt]) ∧
    (∀ l lastResponse, resp = Except.ok (EnhanceBody.steps l) →
        l.getLast? = some lastResponse →
        ¬ lastResponse.status = some "success" →
        enhancePrompt prompt resp = [prompt]) ∧
    (enhancePrompt prompt resp = [prompt] ∨
      ∃ l lastResponse ps, resp = Except.ok (EnhanceBody.steps l) ∧
        l.getLast? = some lastResponse ∧
        lastResponse.status = some "success" ∧
        lastResponse.outputs.bind EnhanceOutputs.expanded_prompts = some ps ∧
        enhancePrompt prompt resp = ps) := by
  refine ⟨?_, ?_, ?_, ?_⟩
  · intro e he; subst he; rfl
  · intro he; subst he; rfl
  · intro l lastResponse he hl hs
    subst he
    simp [enhancePrompt, hl, hs]
  · cases resp with
    | error e => exact Or.inl rfl
    | ok body =>
      cases body with
      | nonArray => exact Or.inl rfl
      | steps l =>
        cases hl : l.getLast? with
        | none => exact Or.inl (by simp [enhancePrompt, hl])
        | some lastResponse =>
          by_cases hs : lastResponse.status = some "success"
          · cases ho : lastResponse.outputs with
            | none => exact Or.inl (by simp [enhancePrompt, hl, hs, ho])
            | some outs =>
              cases hp : outs.expanded_prompts with
              | none => exact Or.inl (by simp [enhancePrompt, hl, hs, ho, hp])
              | some ps =>
                refine Or.inr ⟨l, lastResponse, ps, rfl, hl, hs, ?_, ?_⟩
                · simp [ho, hp]
                · simp [enhancePrompt, hl, hs, ho, hp]
          · exact Or.inl (by simp [enhancePrompt, hl, hs])

/-- Witness for C9 at a concrete transport failure. -/
theorem enhancePrompt_fallback_witness :
    enhancePrompt "a red fox" (Except.error "boom") = ["a red fox"] :=
  (enhancePrompt_fallback "a red fox" (Except.error "boom")).1 "boom" rfl

/-- C4: with batchSize = N ≥ 1 and all pipelines succeeding, generateImage
returns exactly N image URLs and exactly N generation identifiers, and
index i of each result array is the result of the i-th launched pipeline
(submission order). -/
theorem generateImage_batch_counts_and_order (opts : GenerateImageOptions)
    (pipeline : Nat → SingleImageResult) (N : Nat)
    (hbs : opts.batchSize = some N) (hN : 1 ≤ N) :
    (generateImage opts pipeline).imageUrls.length = N ∧
    (generateImage opts pipeline).generationIds.length = N ∧
    (∀ i, i < N →
        (generateImage opts pipeline).imageUrls[i]? = some (pipeline i).imageUrl) ∧
    (∀ i, i < N →
        (generateImage opts pipeline).generationIds[i]?
          = some (pipeline i).generationId) := by
  have hNz : N ≠ 0 := by omega
  have hbsz : orDefaultNat opts.batchSize 1 = N := by simp [orDefaultNat, hbs, hNz]
  refine ⟨?_, ?_, ?_, ?_⟩
  · simp [generateImage, aggregateResults, hbsz]
  · simp [generateImage, aggregateResults, hbsz]
  · intro i hi
    simp [generateImage, aggregateResults, hbsz, List.getElem?_map,
      List.getElem?_range hi]
  · intro i hi
    simp [generateImage, aggregateResults, hbsz, List.getElem?_map,
      List.getElem?_range hi]

/-- Concrete options for a two-item batch. -/
def genOptsTwo : GenerateImageOptions :=
  { prompt := "a red fox", negativePrompt := none, width := some 1024,
    height := some 1024, seed := none, batchSize := some 2, model := none,
    enhancePrompt := some false }

/-- Concrete pipeline results indexed by submission order. -/
def pipeTwo : Nat → SingleImageResult := fun i =>
  { imageUrl := "u" ++ toString i, seed := Int.ofNat i,
    generationId := "id" ++ toString i, enhancedPrompt := none,
    caption := "a red fox" }

/-- Witness for C4 at a concrete two-item batch. -/
theorem generateImage_batch_counts_and_order_witness :
    (generateImage genOptsTwo pipeTwo).imageUrls.length = 2 ∧
    (generateImage genOptsTwo pipeTwo).imageUrls[1]? = some "u1" := by
  have h := generateImage_batch_counts_and_order genOptsTwo pipeTwo 2 rfl (by omega)
  refine ⟨h.1, ?_⟩
  have h2 := h.2.2.1 1 (by omega)
  rw [h2]
  rfl

/-- C5 counterexample: when the caller gives no explicit seed, the per-item
seed submitted for a batch item is the constant -1 sentinel whatever the
random draw — the base seed is not jittered in that case — while an
explicit seed of 100 with draw 7 is jittered to 107. -/
theorem batchItemSeed_no_jitter_without_explicit_seed :
    batchItemSeed none 7 = -1 ∧ batchItemSeed none 123 = -1 ∧
    batchItemSeed (some 100) 7 = 107 := by
  refine ⟨rfl, rfl, by decide⟩

/-- C5 (amended): the jitter applies when the caller gives an explicit seed
— each batch item is then submitted with that seed plus a random offset
below 1000 — while with no explicit seed every item carries the -1
sentinel, which generateSingleImage resolves per item to an independent
random non-negative seed below 10^7, so a batch does not share one fixed
submitted seed. -/
theorem batchItemSeed_jitter_on_explicit_seed (s : Int) (draw draw2 : Nat) :
    batchItemSeed (some s) draw = s + ((draw % 1000 : Nat) : Int) ∧
    batchItemSeed none draw = -1 ∧
    resolveSeed (batchItemSeed none draw) draw2 = ((draw2 % 10000000 : Nat) : Int) ∧
    0 ≤ resolveSeed (batchItemSeed none draw) draw2 := by
  refine ⟨rfl, rfl, by simp [batchItemSeed, resolveSeed], ?_⟩
  have : resolveSeed (batchItemSeed none draw) draw2
      = ((draw2 % 10000000 : Nat) : Int) := by simp [batchItemSeed, resolveSeed]
  rw [this]
  exact Int.natCast_nonneg _

/-- C6: with enhancePrompt = false, the caption submitted in
inference_inputs is the input prompt verbatim, and when the seed input is
the -1 sentinel the submitted seed resolves to a non-negative integer. -/
theorem generateSingleImage_verbatim_caption (opts : GenerateImageOptions)
    (enhancedPrompt : Option String) (enhanceNow : List String) (seedDraw : Nat)
    (hE : opts.enhancePrompt = some false) :
    (generationPayloadOf opts enhancedPrompt enhanceNow seedDraw).inference_inputs.caption
      = opts.prompt ∧
    (opts.seed.getD (-1) = -1 →
      0 ≤ (generationPayloadOf opts enhancedPrompt enhanceNow
            seedDraw).inference_inputs.seed) := by
  constructor
  · simp [generationPayloadOf, finalPromptOf, hE]
  · intro hs
    have hseed : (generationPayloadOf opts enhancedPrompt enhanceNow
        seedDraw).inference_inputs.seed = ((seedDraw % 10000000 : Nat) : Int) := by
      simp [generationPayloadOf, resolveSeed, hs]
    rw [hseed]
    exact Int.natCast_nonneg _

/-- Concrete options of the red-fox scenario. -/
def redFoxOpts : GenerateImageOptions :=
  { prompt := "a red fox", negativePrompt := none, width := some 1024,
    height := some 1024, seed := some (-1), batchSize := some 1, model := none,
    enhancePrompt := some false }

/-- Witness for C6 on the red-fox scenario with seed -1 and draw 42. -/
theorem generateSingleImage_verbatim_caption_witness :
    (generationPayloadOf redFoxOpts none [] 42).inference_inputs.caption
      = "a red fox" ∧
    0 ≤ (generationPayloadOf redFoxOpts none [] 42).inference_inputs.seed :=
  ⟨(generateSingleImage_verbatim_caption redFoxOpts none [] 42 rfl).1,
   (generateSingleImage_verbatim_caption redFoxOpts none [] 42 rfl).2 rfl⟩

end ReveAI
